import Mathlib

/-!
Shallow embedding of the browser synchronization client in `src/app.js`
(class `VoiceAssistantUI`): the client-side view state, the three polls
(`checkAssistantStatus`, `loadDevices`, `loadEvents`), the reconciliation
and rendering routines, the user actions (`startAssistant`, `stopAssistant`,
`testCommand`, `clearTranscription`) and the polling schedule installed by
`startEventPolling`.

Modelling conventions:
* Network effects are passed explicitly: each operation that performs a
  `fetch` takes the parsed response as an `Option _` argument; `none` models
  a rejected/thrown fetch (or a `response.json()` failure), i.e. the path
  that lands in the JS `catch` block.
* `showNotification` calls are collected in a returned `List Notification`
  (the DOM notification element and its 3s expiry timer are presentation
  plumbing and carry no further state).
* DOM elements owned by the class are folded into the `UIState` record:
  `innerHTML` strings for the rendered regions, `value` for inputs,
  `disabled` flags for the three buttons, and an option-list/value pair for
  the two rebuilt `<select>` filters.  `scrollTop` adjustment and the icon
  class swaps in `setLoading` are presentation-only and not tracked.
* `Date(ts*1000).toLocaleString()` is modelled by a deterministic formatting
  function of the integer timestamp, and `JSON.stringify` of an event's
  `data` payload by a deterministic serializer over string-valued fields;
  the claims under study depend only on determinism of these renderings.
* The whitespace/indentation of the JS template literals is simplified;
  every interpolation point, class name and conditional fragment is kept.
-/

/-- A device record as consumed by the client (`data.devices` values).
`properties`/`last_updated` appear only in the modal detail view and are
not needed by the reconciliation logic under study. -/
structure Device where
  id : String
  name : String
  device_type : String
  location : String
  status : String
  deriving Repr, DecidableEq

/-- An event record as consumed by the client (`data.events` entries).
The open-ended `data` payload is modelled as a string-valued JSON object. -/
structure Event where
  type : String
  message : String
  timestamp : Int
  data : List (String × String)
  deriving Repr, DecidableEq

/-- A transient notification created by `showNotification(message, type)`. -/
structure Notification where
  message : String
  ntype : String
  deriving Repr, DecidableEq

/-- A `<select>` element: its option values (in document order) and its
current `value`. -/
structure SelectEl where
  options : List String
  value : String
  deriving Repr, DecidableEq

/-- HTML `<select>` semantics for the filter rebuild in `updateFilters`:
assigning `innerHTML` replaces all option elements; since none of the new
options carries the `selected` attribute, the browser selects the first
option of a single-select element, so `value` becomes the first option's
value (the empty-valued show-all option in this code). -/
def setSelectOptions (_s : SelectEl) (opts : List String) : SelectEl :=
  { options := opts, value := opts.headD "" }

/-- The client-side view state: the fields of `VoiceAssistantUI` plus the
DOM state it owns (rendered `innerHTML` regions, button `disabled` flags,
input values, filter selects). -/
structure UIState where
  isAssistantActive : Bool
  devices : List Device
  events : List Event
  locationFilter : SelectEl
  typeFilter : SelectEl
  eventFilter : String
  testCommandValue : String
  devicesGrid : String
  activityLog : String
  transcriptionDisplay : String
  statusClass : String
  statusText : String
  startBtnDisabled : Bool
  stopBtnDisabled : Bool
  testBtnDisabled : Bool
  deriving Repr, DecidableEq

/-- Parsed body of `GET /api/voice/status`. -/
structure StatusResponse where
  success : Bool
  is_active : Bool
  is_listening : Bool
  deriving Repr, DecidableEq

/-- Parsed body of `GET /api/devices/`: `devices` is a JSON object mapping
id to device record, modelled as an association list in key insertion
order (the order `Object.values` enumerates). -/
structure DevicesResponse where
  success : Bool
  devices : List (String × Device)
  deriving Repr, DecidableEq

/-- Parsed body of `GET /api/voice/events?limit=50`. -/
structure EventsResponse where
  success : Bool
  events : List Event
  deriving Repr, DecidableEq

/-- Parsed body of the action endpoints (`/api/voice/start`, `/stop`,
`/test`): a success flag and a message. -/
structure MsgResponse where
  success : Bool
  message : String
  deriving Repr, DecidableEq

/-- `JSON.stringify(event.data, null, 2)` restricted to the string-valued
payloads of the data model; deterministic in its argument. -/
def stringifyData (d : List (String × String)) : String :=
  "\x7b" ++ String.intercalate ", "
    (d.map (fun p => "\x22" ++ p.1 ++ "\x22: \x22" ++ p.2 ++ "\x22")) ++ "\x7d"

/-- `new Date(ts * 1000).toLocaleString()`: an (unspecified but
deterministic) rendering of the timestamp. -/
def localeString (ts : Int) : String :=
  "@" ++ toString ts

/-- `[...new Set(xs)]`: deduplication keeping the first occurrence of each
element, in order. -/
def jsSetDedup (xs : List String) : List String :=
  xs.foldl (fun acc x => if x ∈ acc then acc else acc ++ [x]) []

/-- `xs.slice(-10)`: the last (at most) 10 elements, in order. -/
def jsSliceLastTen (xs : List Event) : List Event :=
  xs.drop (xs.length - 10)

/-- `String.prototype.trim()` on the test-command input, modelled
structurally: strip leading and trailing whitespace characters. -/
def jsTrim (s : String) : String :=
  ⟨(((s.data.dropWhile Char.isWhitespace).reverse.dropWhile Char.isWhitespace).reverse)⟩

/-- The three buttons touched by `setLoading`. -/
inductive Btn where
  | start
  | stop
  | test
  deriving Repr, DecidableEq

/-- `setLoading(button, loading)`: sets the button's `disabled` flag (the
spinner icon swap is presentation-only). -/
def setLoading (st : UIState) (b : Btn) (loading : Bool) : UIState :=
  match b with
  | .start => { st with startBtnDisabled := loading }
  | .stop => { st with stopBtnDisabled := loading }
  | .test => { st with testBtnDisabled := loading }

/-- `updateStatus(status, text)`: class and text of the status indicator. -/
def updateStatus (st : UIState) (status text : String) : UIState :=
  { st with statusClass := "status-indicator " ++ status, statusText := text }

/-- `getDeviceControls(device)`. -/
def getDeviceControls (d : Device) : String :=
  if d.status = "off" then
    "<button class=\x22btn btn-primary btn-small\x22 onclick=\x22event.stopPropagation(); app.controlDevice(\x27"
      ++ d.id ++ "\x27, \x27turn_on\x27)\x22><i class=\x22fas fa-power-off\x22></i> Turn On</button>"
  else
    "<button class=\x22btn btn-secondary btn-small\x22 onclick=\x22event.stopPropagation(); app.controlDevice(\x27"
      ++ d.id ++ "\x27, \x27turn_off\x27)\x22><i class=\x22fas fa-power-off\x22></i> Turn Off</button>"

/-- One device card of the `renderDevices` template. -/
def deviceCard (d : Device) : String :=
  "<div class=\x22device-card\x22 onclick=\x22app.showDeviceDetails(\x27" ++ d.id ++ "\x27)\x22>"
    ++ "<div class=\x22device-header\x22><div class=\x22device-info\x22><h4>" ++ d.name
    ++ "</h4><span class=\x22device-type\x22>" ++ d.device_type ++ "</span></div>"
    ++ "<span class=\x22device-status " ++ d.status ++ "\x22>" ++ d.status ++ "</span></div>"
    ++ "<div class=\x22device-location\x22><i class=\x22fas fa-map-marker-alt\x22></i> " ++ d.location ++ "</div>"
    ++ "<div class=\x22device-controls-inline\x22>" ++ getDeviceControls d ++ "</div></div>"

/-- `getFilteredDevices()`: JS string truthiness makes the empty-valued
show-all option skip the filter. -/
def getFilteredDevices (st : UIState) : List Device :=
  let filtered := st.devices
  let filtered := if st.locationFilter.value ≠ "" then
      filtered.filter (fun d => d.location = st.locationFilter.value)
    else filtered
  let filtered := if st.typeFilter.value ≠ "" then
      filtered.filter (fun d => d.device_type = st.typeFilter.value)
    else filtered
  filtered

/-- The grid `innerHTML` produced by `renderDevices` from the filtered
device list: the no-devices placeholder, or the joined device cards. -/
def devicesGridOf (filteredDevices : List Device) : String :=
  if filteredDevices.length = 0 then
    "<div class=\x22no-devices\x22><i class=\x22fas fa-home\x22></i><p>No devices found</p></div>"
  else
    String.join (filteredDevices.map deviceCard)

/-- `renderDevices()`: writes the devices grid `innerHTML`. -/
def renderDevices (st : UIState) : UIState :=
  { st with devicesGrid := devicesGridOf (getFilteredDevices st) }

/-- `updateFilters()`: rebuilds both filter selects from the current device
set — a show-all option followed by the distinct locations (resp. device
types) in first-occurrence order.  The `innerHTML` assignment carries no
`selected` attribute, so per `setSelectOptions` the selection lands on the
first, show-all, option. -/
def updateFilters (st : UIState) : UIState :=
  let locations := jsSetDedup (st.devices.map (fun d => d.location))
  let types := jsSetDedup (st.devices.map (fun d => d.device_type))
  { st with
    locationFilter := setSelectOptions st.locationFilter ("" :: locations),
    typeFilter := setSelectOptions st.typeFilter ("" :: types) }

/-- The filter update as §4.1 step 2 of the spec words it: recompute the
option sets, keep the current selection when its value still occurs in the
new option set, otherwise reset it to show-all.  Stated for comparison with
`updateFilters`, which is translated from the source. -/
def updateFiltersSpec (st : UIState) : UIState :=
  let locations := jsSetDedup (st.devices.map (fun d => d.location))
  let types := jsSetDedup (st.devices.map (fun d => d.device_type))
  let keep : String → List String → String := fun v opts => if v ∈ opts then v else ""
  { st with
    locationFilter :=
      { options := "" :: locations, value := keep st.locationFilter.value ("" :: locations) },
    typeFilter :=
      { options := "" :: types, value := keep st.typeFilter.value ("" :: types) } }

/-- `loadDevices()`: on success replaces the device list with
`Object.values(data.devices)`, re-renders the grid, then rebuilds the
filters; a thrown fetch lands in the `catch` and surfaces an error
notification; `success:false` does nothing. -/
def loadDevices (st : UIState) (resp : Option DevicesResponse) :
    UIState × List Notification :=
  match resp with
  | none => (st, [⟨"Failed to load devices", "error"⟩])
  | some data =>
    if data.success then
      let st := { st with devices := data.devices.map Prod.snd }
      let st := renderDevices st
      let st := updateFilters st
      (st, [])
    else (st, [])

/-- One activity item of the `renderEvents` template. -/
def eventItem (e : Event) : String :=
  "<div class=\x22activity-item\x22><div class=\x22activity-header\x22><span class=\x22activity-type "
    ++ e.type ++ "\x22>" ++ e.type ++ "</span><span class=\x22activity-timestamp\x22>"
    ++ localeString e.timestamp ++ "</span></div><div class=\x22activity-message\x22>" ++ e.message
    ++ "</div>"
    ++ (if e.data.length > 0 then
          "<div class=\x22activity-details\x22>" ++ stringifyData e.data ++ "</div>"
        else "")
    ++ "</div>"

/-- `getFilteredEvents()`. -/
def getFilteredEvents (st : UIState) : List Event :=
  if st.eventFilter = "" then st.events
  else st.events.filter (fun e => e.type = st.eventFilter)

/-- The activity log `innerHTML` produced by `renderEvents` from the
filtered event list: the no-events placeholder, or the joined items. -/
def activityLogOf (filteredEvents : List Event) : String :=
  if filteredEvents.length = 0 then
    "<div class=\x22no-events\x22><i class=\x22fas fa-history\x22></i><p>No events found</p></div>"
  else
    String.join (filteredEvents.map eventItem)

/-- `renderEvents()`: writes the activity log `innerHTML`. -/
def renderEvents (st : UIState) : UIState :=
  { st with activityLog := activityLogOf (getFilteredEvents st) }

/-- The predicate of `updateTranscription`'s filter. -/
def isTranscriptionEvent (e : Event) : Bool :=
  e.type = "transcription_final" || e.type = "transcription_partial"

/-- The transcription sub-view derived in `updateTranscription`: the
transcription-typed events of the list, then `slice(-10)`. -/
def transcriptionSubview (events : List Event) : List Event :=
  jsSliceLastTen (events.filter isTranscriptionEvent)

/-- One transcription item of the `updateTranscription` template. -/
def transcriptionItem (e : Event) : String :=
  "<div class=\x22transcription-item "
    ++ (if e.type = "transcription_partial" then "partial" else "")
    ++ "\x22><div class=\x22timestamp\x22>" ++ localeString e.timestamp
    ++ "</div><div class=\x22text\x22>" ++ e.message ++ "</div></div>"

/-- The not-active placeholder shown by `updateTranscription`. -/
def transcriptionInactivePlaceholder : String :=
  "<div class=\x22placeholder\x22><i class=\x22fas fa-microphone-slash\x22></i><p>Voice assistant is not active. Start the assistant to see transcriptions.</p></div>"

/-- The waiting placeholder shown by `updateTranscription`. -/
def transcriptionWaitingPlaceholder : String :=
  "<div class=\x22placeholder\x22><i class=\x22fas fa-microphone\x22></i><p>Waiting for voice input...</p></div>"

/-- The transcription display `innerHTML` produced by `updateTranscription`
from the stored event list and the assistant-active flag: one of the two
placeholders when no transcription event is stored, otherwise the rendered
`transcriptionSubview`. -/
def transcriptionDisplayOf (events : List Event) (isAssistantActive : Bool) : String :=
  let transcriptionEvents := events.filter isTranscriptionEvent
  if transcriptionEvents.length = 0 then
    if !isAssistantActive then transcriptionInactivePlaceholder
    else transcriptionWaitingPlaceholder
  else
    String.join ((transcriptionSubview events).map transcriptionItem)

/-- `updateTranscription()`: re-derives the transcription display from the
stored event list and the assistant-active flag. -/
def updateTranscription (st : UIState) : UIState :=
  { st with transcriptionDisplay := transcriptionDisplayOf st.events st.isAssistantActive }

/-- `clearTranscription()`: overwrites only the transcription display with
a placeholder whose text depends on the assistant-active flag. -/
def clearTranscription (st : UIState) : UIState :=
  { st with transcriptionDisplay :=
      "<div class=\x22placeholder\x22><i class=\x22fas fa-microphone\x22></i><p>Transcription cleared. "
        ++ (if st.isAssistantActive then "Waiting for voice input..."
            else "Start the assistant to see transcriptions.")
        ++ "</p></div>" }

/-- `loadEvents()`: on success replaces the event list wholesale, re-renders
the activity log and re-derives the transcription view; a thrown fetch is
caught and only logged to the console (no notification); `success:false`
does nothing. -/
def loadEvents (st : UIState) (resp : Option EventsResponse) :
    UIState × List Notification :=
  match resp with
  | none => (st, [])
  | some data =>
    if data.success then
      let st := { st with events := data.events }
      let st := renderEvents st
      let st := updateTranscription st
      (st, [])
    else (st, [])

/-- `checkAssistantStatus()`: on success adopts `status.is_active`, sets the
status indicator and the start/stop `disabled` flags; a thrown fetch is
caught and only logged to the console (no notification); `success:false`
does nothing. -/
def checkAssistantStatus (st : UIState) (resp : Option StatusResponse) :
    UIState × List Notification :=
  match resp with
  | none => (st, [])
  | some data =>
    if data.success then
      let st := { st with isAssistantActive := data.is_active }
      if data.is_active then
        let st := if data.is_listening then updateStatus st "listening" "Listening..."
          else updateStatus st "active" "Active"
        ({ st with startBtnDisabled := true, stopBtnDisabled := false }, [])
      else
        let st := updateStatus st "offline" "Offline"
        ({ st with startBtnDisabled := false, stopBtnDisabled := true }, [])
    else (st, [])

/-- `startAssistant()`: POST `/api/voice/start`; the `finally` clause runs
`setLoading(startBtn, false)` on every path. -/
def startAssistant (st : UIState) (resp : Option MsgResponse) :
    UIState × List Notification :=
  let st := setLoading st .start true
  match resp with
  | none => (setLoading st .start false, [⟨"Failed to start voice assistant", "error"⟩])
  | some data =>
    if data.success then
      let st := { st with isAssistantActive := true }
      let st := updateStatus st "active" "Voice assistant started"
      let st := { st with startBtnDisabled := true, stopBtnDisabled := false }
      (setLoading st .start false, [⟨"Voice assistant started successfully", "success"⟩])
    else
      (setLoading st .start false, [⟨data.message, "error"⟩])

/-- `stopAssistant()`: POST `/api/voice/stop`; the `finally` clause runs
`setLoading(stopBtn, false)` on every path. -/
def stopAssistant (st : UIState) (resp : Option MsgResponse) :
    UIState × List Notification :=
  let st := setLoading st .stop true
  match resp with
  | none => (setLoading st .stop false, [⟨"Failed to stop voice assistant", "error"⟩])
  | some data =>
    if data.success then
      let st := { st with isAssistantActive := false }
      let st := updateStatus st "offline" "Voice assistant stopped"
      let st := { st with startBtnDisabled := false, stopBtnDisabled := true }
      (setLoading st .stop false, [⟨"Voice assistant stopped", "info"⟩])
    else
      (setLoading st .stop false, [⟨data.message, "error"⟩])

/-- `testCommand()`: trims the input; an empty command short-circuits with a
warning before any fetch.  The returned `Bool` records whether the POST to
`/api/voice/test` was issued.  The delayed `loadEvents` refresh scheduled on
success (`setTimeout(..., 500)`) is a separate later poll, not part of this
handler's immediate effect. -/
def testCommand (st : UIState) (resp : Option MsgResponse) :
    UIState × List Notification × Bool :=
  let command := jsTrim st.testCommandValue
  if command = "" then
    (st, [⟨"Please enter a command to test", "warning"⟩], false)
  else
    let st := setLoading st .test true
    match resp with
    | none => (setLoading st .test false, [⟨"Failed to test command", "error"⟩], true)
    | some data =>
      if data.success then
        let st := { st with testCommandValue := "" }
        (setLoading st .test false, [⟨"Command processed successfully", "success"⟩], true)
      else
        (setLoading st .test false, [⟨data.message, "error"⟩], true)

/-- The event-poll interval installed by `startEventPolling` (ms). -/
def eventPollIntervalMs : Nat := 2000

/-- The status-poll interval installed by `startEventPolling` (ms). -/
def statusPollIntervalMs : Nat := 5000

/-- The event-poll fetch limit (`/api/voice/events?limit=50`). -/
def eventPollLimit : Nat := 50

/-- An HTTP request issued by a poll tick. -/
inductive PollRequest where
  | fetchEvents (limit : Nat)
  | fetchStatus
  deriving Repr, DecidableEq

/-- One millisecond tick `t > 0` of the schedule installed by
`startEventPolling`: the 2s interval callback runs `loadEvents` only when
the local view believes the assistant is active; the 5s interval callback
runs `checkAssistantStatus` unconditionally.  The event interval is
registered first, so at a coincident expiry its callback runs first.
Returns the updated state together with the requests issued at this tick. -/
def pollTick (st : UIState) (t : Nat)
    (evResp : Option EventsResponse) (stResp : Option StatusResponse) :
    UIState × List PollRequest :=
  let (st, evReqs) :=
    if t % eventPollIntervalMs = 0 then
      if st.isAssistantActive then
        ((loadEvents st evResp).1, [PollRequest.fetchEvents eventPollLimit])
      else (st, [])
    else (st, [])
  let (st, stReqs) :=
    if t % statusPollIntervalMs = 0 then
      ((checkAssistantStatus st stResp).1, [PollRequest.fetchStatus])
    else (st, [])
  (st, evReqs ++ stReqs)

/-- A successfully fetched full server snapshot: the device map, the event
slice and the assistant status. -/
structure Snapshot where
  devices : List (String × Device)
  events : List Event
  is_active : Bool
  is_listening : Bool
  deriving Repr, DecidableEq

/-- The reconciliation-and-render step on a full snapshot: the success paths
of `loadDevices`, `loadEvents` and `checkAssistantStatus`, in the order
`loadInitialData` runs them. -/
def reconcileStep (st : UIState) (snap : Snapshot) : UIState :=
  let st := (loadDevices st (some ⟨true, snap.devices⟩)).1
  let st := (loadEvents st (some ⟨true, snap.events⟩)).1
  (checkAssistantStatus st (some ⟨true, snap.is_active, snap.is_listening⟩)).1

/-! ### Sample concrete states used by witnesses and counterexamples -/

/-- A select holding only the show-all option. -/
def emptySelect : SelectEl := ⟨[""], ""⟩

/-- A freshly constructed client view state (all regions empty, assistant
believed inactive, no filter selected). -/
def sampleState : UIState :=
  { isAssistantActive := false
    devices := []
    events := []
    locationFilter := emptySelect
    typeFilter := emptySelect
    eventFilter := ""
    testCommandValue := ""
    devicesGrid := ""
    activityLog := ""
    transcriptionDisplay := ""
    statusClass := ""
    statusText := ""
    startBtnDisabled := false
    stopBtnDisabled := true
    testBtnDisabled := false }

/-- A state whose local view believes the assistant is active. -/
def sampleActiveState : UIState :=
  { sampleState with isAssistantActive := true }

/-- A state holding a non-empty test-command input. -/
def sampleTypedState : UIState :=
  { sampleState with testCommandValue := "turn on the lamp" }

/-! ### Theorems -/

/-- C1: a failed poll (the fetch rejects or throws, landing in the JS
`catch`) leaves the previously-reconciled local state — the stored device
list, event list and assistant-active flag — exactly as it was, for each of
the three polls (`loadDevices`, `loadEvents`, `checkAssistantStatus`). -/
theorem failed_poll_preserves_state (st : UIState) :
    ((loadDevices st none).1.devices = st.devices ∧
      (loadDevices st none).1.events = st.events ∧
      (loadDevices st none).1.isAssistantActive = st.isAssistantActive) ∧
    ((loadEvents st none).1.devices = st.devices ∧
      (loadEvents st none).1.events = st.events ∧
      (loadEvents st none).1.isAssistantActive = st.isAssistantActive) ∧
    ((checkAssistantStatus st none).1.devices = st.devices ∧
      (checkAssistantStatus st none).1.events = st.events ∧
      (checkAssistantStatus st none).1.isAssistantActive = st.isAssistantActive) :=
  ⟨⟨rfl, rfl, rfl⟩, ⟨rfl, rfl, rfl⟩, ⟨rfl, rfl, rfl⟩⟩

/-- C7: a successful device-list fetch replaces the local device set
wholesale: afterwards it equals exactly `Object.values` of the fetched
device map — nothing retained from the previous local set, nothing added
beyond the response. -/
theorem loadDevices_full_snapshot (st : UIState) (devs : List (String × Device)) :
    (loadDevices st (some ⟨true, devs⟩)).1.devices = devs.map Prod.snd :=
  rfl

/-- C8: on a successful status poll, `is_active ∧ is_listening` shows
"Listening..." with the start control disabled and the stop control
enabled, while `is_active = false` shows "Offline" with the start control
re-enabled and the stop control disabled. -/
theorem checkAssistantStatus_ui_transitions (st : UIState) (b : Bool) :
    ((checkAssistantStatus st (some ⟨true, true, true⟩)).1.statusText = "Listening..." ∧
      (checkAssistantStatus st (some ⟨true, true, true⟩)).1.startBtnDisabled = true ∧
      (checkAssistantStatus st (some ⟨true, true, true⟩)).1.stopBtnDisabled = false) ∧
    ((checkAssistantStatus st (some ⟨true, false, b⟩)).1.statusText = "Offline" ∧
      (checkAssistantStatus st (some ⟨true, false, b⟩)).1.startBtnDisabled = false ∧
      (checkAssistantStatus st (some ⟨true, false, b⟩)).1.stopBtnDisabled = true) :=
  ⟨⟨rfl, rfl, rfl⟩, ⟨rfl, rfl, rfl⟩⟩

/-- C10: `clearTranscription` overwrites only the transcription display;
every other component of the client state — in particular the stored event
list — is untouched, and the next `updateTranscription` re-derives exactly
what it would have derived without the clear, so cleared entries reappear. -/
theorem clearTranscription_frame (st : UIState) :
    (clearTranscription st).isAssistantActive = st.isAssistantActive ∧
    (clearTranscription st).devices = st.devices ∧
    (clearTranscription st).events = st.events ∧
    (clearTranscription st).locationFilter = st.locationFilter ∧
    (clearTranscription st).typeFilter = st.typeFilter ∧
    (clearTranscription st).eventFilter = st.eventFilter ∧
    (clearTranscription st).testCommandValue = st.testCommandValue ∧
    (clearTranscription st).devicesGrid = st.devicesGrid ∧
    (clearTranscription st).activityLog = st.activityLog ∧
    (clearTranscription st).statusClass = st.statusClass ∧
    (clearTranscription st).statusText = st.statusText ∧
    (clearTranscription st).startBtnDisabled = st.startBtnDisabled ∧
    (clearTranscription st).stopBtnDisabled = st.stopBtnDisabled ∧
    (clearTranscription st).testBtnDisabled = st.testBtnDisabled ∧
    updateTranscription (clearTranscription st) = updateTranscription st :=
  ⟨rfl, rfl, rfl, rfl, rfl, rfl, rfl, rfl, rfl, rfl, rfl, rfl, rfl, rfl, rfl⟩

/-- C4: the transcription sub-view derived from a fetched event list
contains only `transcription_partial`/`transcription_final` events, has at
most 10 entries, is a suffix of the transcription-typed events (i.e. the
most recent ones), and is a sublist of the fetched list (fetch order is
preserved). -/
theorem transcriptionSubview_invariants (events : List Event) :
    (∀ e ∈ transcriptionSubview events,
        e.type = "transcription_partial" ∨ e.type = "transcription_final") ∧
    (transcriptionSubview events).length ≤ 10 ∧
    (transcriptionSubview events) <:+ events.filter isTranscriptionEvent ∧
    (transcriptionSubview events).Sublist events := by
  have hsuffix : (transcriptionSubview events) <:+ events.filter isTranscriptionEvent :=
    List.drop_suffix _ _
  refine ⟨?_, ?_, hsuffix, (hsuffix.sublist).trans (List.filter_sublist _)⟩
  · intro e he
    have hmem : e ∈ events.filter isTranscriptionEvent := hsuffix.subset he
    have := List.of_mem_filter hmem
    rcases Bool.or_eq_true_iff.mp this with h | h
    · exact Or.inr (by simpa using h)
    · exact Or.inl (by simpa using h)
  · calc (transcriptionSubview events).length
        = (events.filter isTranscriptionEvent).length
            - ((events.filter isTranscriptionEvent).length - 10) := by
          simp [transcriptionSubview, jsSliceLastTen]
      _ ≤ 10 := by omega

/-- The device used by the filter-preservation counterexample. -/
def bedroomLamp : Device := ⟨"d1", "Lamp", "light", "Bedroom", "off"⟩

/-- A state in which the user has selected location "Bedroom", and the
device set (already reconciled once) still contains a Bedroom device. -/
def filterSelectedState : UIState :=
  { sampleState with
    devices := [bedroomLamp]
    locationFilter := ⟨["", "Bedroom"], "Bedroom"⟩
    typeFilter := ⟨["", "light"], ""⟩ }

/-- C2 counterexample: with location filter "Bedroom" selected and a fetch
returning the same Bedroom device, "Bedroom" still occurs in the newly
derived option set, yet reconciliation does not preserve the selection —
the select value ends up at the show-all value. -/
theorem updateFilters_drops_live_selection :
    filterSelectedState.locationFilter.value = "Bedroom" ∧
    "Bedroom" ∈
      (loadDevices filterSelectedState
        (some ⟨true, [("d1", bedroomLamp)]⟩)).1.locationFilter.options ∧
    (loadDevices filterSelectedState
      (some ⟨true, [("d1", bedroomLamp)]⟩)).1.locationFilter.value ≠ "Bedroom" := by
  refine ⟨rfl, ?_, ?_⟩ <;> decide

/-- C2 amended: reconciliation recomputes the filter option sets (show-all
followed by the distinct locations, resp. device types, of the new device
set) but always resets both filter selections to the show-all value, even
when the previous selection still occurs in the new option set. -/
theorem updateFilters_resets_selection (st : UIState) (devs : List (String × Device)) :
    (updateFilters st).locationFilter.value = "" ∧
    (updateFilters st).typeFilter.value = "" ∧
    (loadDevices st (some ⟨true, devs⟩)).1.locationFilter.value = "" ∧
    (loadDevices st (some ⟨true, devs⟩)).1.typeFilter.value = "" ∧
    (loadDevices st (some ⟨true, devs⟩)).1.locationFilter.options
      = "" :: jsSetDedup ((devs.map Prod.snd).map (fun d => d.location)) ∧
    (loadDevices st (some ⟨true, devs⟩)).1.typeFilter.options
      = "" :: jsSetDedup ((devs.map Prod.snd).map (fun d => d.device_type)) :=
  ⟨rfl, rfl, rfl, rfl, rfl, rfl⟩

/-- C9: a test-command submission that is empty after trimming surfaces
exactly one warning notification, issues no HTTP request and leaves the
state exactly unchanged; a non-empty submission surfaces exactly one
notification and issues the request. -/
theorem testCommand_empty_validation (st : UIState) (resp : Option MsgResponse) :
    (jsTrim st.testCommandValue = "" →
      testCommand st resp = (st, [⟨"Please enter a command to test", "warning"⟩], false)) ∧
    (jsTrim st.testCommandValue ≠ "" →
      (testCommand st resp).2.1.length = 1 ∧ (testCommand st resp).2.2 = true) := by
  constructor
  · intro h
    simp [testCommand, h]
  · intro h
    cases resp with
    | none => simp [testCommand, h]
    | some data => by_cases hs : data.success <;> simp [testCommand, h, hs]

/-- C9 witness: concrete empty and non-empty submissions. -/
theorem testCommand_empty_validation_witness :
    testCommand sampleState none
      = (sampleState, [⟨"Please enter a command to test", "warning"⟩], false) ∧
    (testCommand sampleTypedState none).2.1.length = 1 :=
  ⟨(testCommand_empty_validation sampleState none).1 (by decide),
   ((testCommand_empty_validation sampleTypedState none).2 (by decide)).1⟩

/-- The status poll never touches the stored event list. -/
lemma checkAssistantStatus_events (st : UIState) (r : Option StatusResponse) :
    (checkAssistantStatus st r).1.events = st.events := by
  cases r with
  | none => rfl
  | some data =>
    by_cases h : data.success
    · by_cases ha : data.is_active <;> by_cases hl : data.is_listening <;>
        simp [checkAssistantStatus, updateStatus, h, ha, hl]
    · simp [checkAssistantStatus, h]

/-- C5: at every tick `t > 0` of the schedule of `startEventPolling`, the
status poll fetches on its fixed 5000 ms interval regardless of the local
active flag, while the event poll fetches the most recent 50 events on its
fixed 2000 ms interval only when the local view believes the assistant is
active; a tick while it is believed inactive issues no event fetch and
leaves the stored event list unchanged. -/
theorem polling_schedule_behavior (st : UIState) (t : Nat)
    (evResp : Option EventsResponse) (stResp : Option StatusResponse)
    (_ht : 0 < t) :
    (PollRequest.fetchStatus ∈ (pollTick st t evResp stResp).2 ↔
        t % statusPollIntervalMs = 0) ∧
    (PollRequest.fetchEvents eventPollLimit ∈ (pollTick st t evResp stResp).2 ↔
        (t % eventPollIntervalMs = 0 ∧ st.isAssistantActive = true)) ∧
    (st.isAssistantActive = false →
        (∀ n, PollRequest.fetchEvents n ∉ (pollTick st t evResp stResp).2) ∧
        (pollTick st t evResp stResp).1.events = st.events) ∧
    eventPollIntervalMs = 2000 ∧ statusPollIntervalMs = 5000 ∧ eventPollLimit = 50 := by
  refine ⟨?_, ?_, ?_, rfl, rfl, rfl⟩ <;>
    by_cases h2 : t % eventPollIntervalMs = 0 <;>
    by_cases h5 : t % statusPollIntervalMs = 0 <;>
    by_cases ha : st.isAssistantActive <;>
    simp [pollTick, h2, h5, ha, checkAssistantStatus_events]

/-- C5 witness: the coincident tick at 10000 ms from an inactive state. -/
theorem polling_schedule_behavior_witness :
    (PollRequest.fetchStatus ∈ (pollTick sampleState 10000 none none).2 ↔
        10000 % statusPollIntervalMs = 0) ∧
    (PollRequest.fetchEvents eventPollLimit ∈ (pollTick sampleState 10000 none none).2 ↔
        (10000 % eventPollIntervalMs = 0 ∧ sampleState.isAssistantActive = true)) :=
  ⟨(polling_schedule_behavior sampleState 10000 none none (by decide)).1,
   (polling_schedule_behavior sampleState 10000 none none (by decide)).2.1⟩

/-- C6 counterexample: a NetworkFailure at the status-poll boundary (and at
the event-poll boundary) is caught but produces zero notifications — it is
not converted to a transient notification as claimed. -/
theorem poll_failure_not_notified :
    (checkAssistantStatus sampleState none).2 = [] ∧
    (loadEvents sampleActiveState none).2 = [] :=
  ⟨rfl, rfl⟩

/-- C6 amended: every failure is caught at its boundary (each handler is a
total function returning the prior state); NetworkFailures and
ApplicationErrors of the start/stop/test actions and NetworkFailures of the
device-list poll are converted to exactly one transient notification, and
the empty-command ValidationError to one warning; but failures of the
status poll and the event poll are caught and only logged — no
notification — and `success:false` responses to the three polls are
silently ignored. -/
theorem failure_policy_boundaries (st : UIState) (msg : String) (a l : Bool)
    (evs : List Event) (devs : List (String × Device)) :
    checkAssistantStatus st none = (st, []) ∧
    loadEvents st none = (st, []) ∧
    loadDevices st none = (st, [⟨"Failed to load devices", "error"⟩]) ∧
    checkAssistantStatus st (some ⟨false, a, l⟩) = (st, []) ∧
    loadEvents st (some ⟨false, evs⟩) = (st, []) ∧
    loadDevices st (some ⟨false, devs⟩) = (st, []) ∧
    (startAssistant st none).2 = [⟨"Failed to start voice assistant", "error"⟩] ∧
    (startAssistant st (some ⟨false, msg⟩)).2 = [⟨msg, "error"⟩] ∧
    (stopAssistant st none).2 = [⟨"Failed to stop voice assistant", "error"⟩] ∧
    (stopAssistant st (some ⟨false, msg⟩)).2 = [⟨msg, "error"⟩] ∧
    (jsTrim st.testCommandValue = "" →
      (testCommand st none).2 = ([⟨"Please enter a command to test", "warning"⟩], false)) ∧
    (jsTrim st.testCommandValue ≠ "" →
      (testCommand st none).2 = ([⟨"Failed to test command", "error"⟩], true) ∧
      (testCommand st (some ⟨false, msg⟩)).2 = ([⟨msg, "error"⟩], true)) := by
  refine ⟨rfl, rfl, rfl, rfl, rfl, rfl, rfl, rfl, rfl, rfl, ?_, ?_⟩
  · intro h
    simp [testCommand, h]
  · intro h
    constructor <;> simp [testCommand, h]

/-- C6 witness: the validation branch at an empty input and the network
branch at a non-empty input. -/
theorem failure_policy_boundaries_witness :
    (testCommand sampleState none).2
      = ([⟨"Please enter a command to test", "warning"⟩], false) ∧
    (testCommand sampleTypedState none).2
      = ([⟨"Failed to test command", "error"⟩], true) :=
  ⟨(failure_policy_boundaries sampleState "m" false false [] []).2.2.2.2.2.2.2.2.2.2.1
      (by decide),
   ((failure_policy_boundaries sampleTypedState "m" false false [] []).2.2.2.2.2.2.2.2.2.2.2
      (by decide)).1⟩

/-- Closed form of one reconciliation-and-render step: every resulting
field is derived from the snapshot and from the handful of prior-state
components the step actually reads (the two filter selections read by the
device render that runs before `updateFilters` rebuilds them, the event
filter, the assistant-active flag read by the transcription render that
runs before the status poll updates it, and the untouched inputs). -/
lemma reconcileStep_closed (st : UIState) (snap : Snapshot) :
    reconcileStep st snap =
      { isAssistantActive := snap.is_active
        devices := snap.devices.map Prod.snd
        events := snap.events
        locationFilter :=
          ⟨"" :: jsSetDedup ((snap.devices.map Prod.snd).map (fun d => d.location)), ""⟩
        typeFilter :=
          ⟨"" :: jsSetDedup ((snap.devices.map Prod.snd).map (fun d => d.device_type)), ""⟩
        eventFilter := st.eventFilter
        testCommandValue := st.testCommandValue
        devicesGrid :=
          devicesGridOf (getFilteredDevices { st with devices := snap.devices.map Prod.snd })
        activityLog := activityLogOf (getFilteredEvents { st with events := snap.events })
        transcriptionDisplay := transcriptionDisplayOf snap.events st.isAssistantActive
        statusClass := "status-indicator "
          ++ (if snap.is_active then (if snap.is_listening then "listening" else "active")
              else "offline")
        statusText := if snap.is_active then (if snap.is_listening then "Listening..." else "Active")
          else "Offline"
        startBtnDisabled := snap.is_active
        stopBtnDisabled := !snap.is_active
        testBtnDisabled := st.testBtnDisabled } := by
  rcases snap with ⟨ds, es, a, l⟩
  cases a <;> cases l <;> rfl

/-- `getFilteredDevices` reads only the device list and the two filter
selection values. -/
lemma getFilteredDevices_congr (st st' : UIState) (hd : st.devices = st'.devices)
    (h1 : st.locationFilter.value = st'.locationFilter.value)
    (h2 : st.typeFilter.value = st'.typeFilter.value) :
    getFilteredDevices st = getFilteredDevices st' := by
  simp only [getFilteredDevices, hd, h1, h2]

/-- `getFilteredEvents` reads only the event list and the event filter. -/
lemma getFilteredEvents_congr (st st' : UIState) (he : st.events = st'.events)
    (hf : st.eventFilter = st'.eventFilter) :
    getFilteredEvents st = getFilteredEvents st' := by
  simp only [getFilteredEvents, he, hf]

/-- A reconciliation step is determined by the snapshot together with the
six prior-state components it reads. -/
lemma reconcileStep_congr (snap : Snapshot) (st st' : UIState)
    (h1 : st.locationFilter.value = st'.locationFilter.value)
    (h2 : st.typeFilter.value = st'.typeFilter.value)
    (h3 : st.eventFilter = st'.eventFilter)
    (h4 : st.isAssistantActive = st'.isAssistantActive)
    (h5 : st.testCommandValue = st'.testCommandValue)
    (h6 : st.testBtnDisabled = st'.testBtnDisabled) :
    reconcileStep st snap = reconcileStep st' snap := by
  rw [reconcileStep_closed st snap, reconcileStep_closed st' snap]
  simp only [UIState.mk.injEq]
  refine ⟨?_, ?_, ?_, ?_, ?_, ?_, ?_, ?_, ?_, ?_, ?_, ?_, ?_, ?_, ?_⟩ <;>
    first
    | rfl
    | trivial
    | exact h3
    | exact h5
    | exact h6
    | exact congrArg devicesGridOf
        (getFilteredDevices_congr _ _ rfl (by simpa using h1) (by simpa using h2))
    | exact congrArg activityLogOf (getFilteredEvents_congr _ _ rfl (by simpa using h3))
    | rw [h4]

/-- The device of the idempotence counterexample, located in the Kitchen. -/
def kitchenFan : Device := ⟨"d2", "Fan", "fan", "Kitchen", "on"⟩

/-- A state whose user has selected location filter "Bedroom". -/
def bedroomFilteredState : UIState :=
  { sampleState with locationFilter := ⟨["", "Bedroom"], "Bedroom"⟩ }

/-- The snapshot of the idempotence counterexample: one Kitchen device, no
events, assistant inactive. -/
def kitchenSnap : Snapshot := ⟨[("d2", kitchenFan)], [], false, false⟩

/-- C3 counterexample: with location filter "Bedroom" selected, the first
reconciliation of the Kitchen-only snapshot renders an empty (filtered)
grid and only then resets the filter, so a second reconciliation of the
very same snapshot renders the device card — the rendered output is not
byte-identical, refuting idempotence of the reconcile-and-render step. -/
theorem reconcile_render_not_idempotent :
    reconcileStep (reconcileStep bedroomFilteredState kitchenSnap) kitchenSnap
      ≠ reconcileStep bedroomFilteredState kitchenSnap := by
  decide

/-- C3 amended: reconciling the same snapshot twice always yields the same
view state (device set, event list, assistant flag, filters); the rendered
output is byte-identical whenever the device filters are at show-all and
the local active flag already matches the snapshot — conditions the step
itself establishes, as `renderDevices` runs before `updateFilters` resets
the selections and the transcription render reads the active flag before
the status update; hence from the second application onward the step is
idempotent unconditionally. -/
theorem reconcile_render_idempotent_after_reset (st : UIState) (snap : Snapshot) :
    ((reconcileStep (reconcileStep st snap) snap).devices
        = (reconcileStep st snap).devices ∧
      (reconcileStep (reconcileStep st snap) snap).events
        = (reconcileStep st snap).events ∧
      (reconcileStep (reconcileStep st snap) snap).isAssistantActive
        = (reconcileStep st snap).isAssistantActive ∧
      (reconcileStep (reconcileStep st snap) snap).locationFilter
        = (reconcileStep st snap).locationFilter ∧
      (reconcileStep (reconcileStep st snap) snap).typeFilter
        = (reconcileStep st snap).typeFilter) ∧
    (st.locationFilter.value = "" → st.typeFilter.value = "" →
      st.isAssistantActive = snap.is_active →
      reconcileStep (reconcileStep st snap) snap = reconcileStep st snap) ∧
    reconcileStep (reconcileStep (reconcileStep st snap) snap) snap
      = reconcileStep (reconcileStep st snap) snap := by
  refine ⟨?_, ?_, ?_⟩
  · simp [reconcileStep_closed]
  · intro h1 h2 h3
    exact reconcileStep_congr snap _ _
      (by simp [reconcileStep_closed, h1])
      (by simp [reconcileStep_closed, h2])
      (by simp [reconcileStep_closed])
      (by simp [reconcileStep_closed, h3])
      (by simp [reconcileStep_closed])
      (by simp [reconcileStep_closed])
  · exact reconcileStep_congr snap _ _
      (by simp [reconcileStep_closed])
      (by simp [reconcileStep_closed])
      (by simp [reconcileStep_closed])
      (by simp [reconcileStep_closed])
      (by simp [reconcileStep_closed])
      (by simp [reconcileStep_closed])

/-- An empty, inactive snapshot used by witnesses. -/
def emptySnap : Snapshot := ⟨[], [], false, false⟩

/-- C3 witness: the amended idempotence at a concrete reset state. -/
theorem reconcile_render_idempotent_after_reset_witness :
    reconcileStep (reconcileStep sampleState emptySnap) emptySnap
      = reconcileStep sampleState emptySnap :=
  (reconcile_render_idempotent_after_reset sampleState emptySnap).2.1 rfl rfl rfl

/-- A concrete final-transcription event. -/
def sampleTranscriptionEvent : Event := ⟨"transcription_final", "hello", 5, []⟩

/-- C4 witness: the invariants evaluated on a concrete one-event fetch. -/
theorem transcriptionSubview_invariants_witness :
    sampleTranscriptionEvent.type = "transcription_partial" ∨
      sampleTranscriptionEvent.type = "transcription_final" :=
  (transcriptionSubview_invariants [sampleTranscriptionEvent]).1
    sampleTranscriptionEvent (by decide)
